import Mathlib

/-!
Verification of the allowance calculation and settlement engine of the
`oman-allowance-app` repository against its specification.

Conventions of the embedding:
* Python `datetime.date` values become `PyDate` (year/month/day naturals,
  compared lexicographically, exactly as Python compares dates).
* Python `Decimal` values become exact rationals `ℚ`; `Decimal.quantize`
  becomes `quantize_amount`, parameterised by the rounding mode.
* Record `metadata` dictionaries (audit-only string maps) are omitted from
  `AllowanceRecord`; every other field is carried.
* Fallible or stateful code (the settlement entry points writing to SQLite)
  becomes explicit state passing over `DbState`.
-/

namespace Oma

/-- Calendar date as in Python `datetime.date`: year, month, day. -/
structure PyDate where
  year : Nat
  month : Nat
  day : Nat
deriving DecidableEq, Repr

/-- Python strict date comparison `a < b`: lexicographic on (year, month, day). -/
def dateLt (a b : PyDate) : Bool :=
  a.year < b.year ||
    (a.year == b.year &&
      (a.month < b.month || (a.month == b.month && a.day < b.day)))

/-- Python date comparison `a <= b`. -/
def dateLe (a b : PyDate) : Bool :=
  dateLt a b || a == b

/-- Gregorian leap-year rule used by Python's `calendar.monthrange`. -/
def isLeapYear (y : Nat) : Bool :=
  (y % 4 == 0 && y % 100 != 0) || y % 400 == 0

/-- Number of days of month `m` of year `y` (`calendar.monthrange(y, m)[1]`). -/
def daysInMonthOf (y m : Nat) : Nat :=
  if m == 2 then (if isLeapYear y then 29 else 28)
  else if m == 4 || m == 6 || m == 9 || m == 11 then 30
  else 31

/-- `days_in_month` from `utils.py`. -/
def days_in_month (d : PyDate) : Nat :=
  daysInMonthOf d.year d.month

/-- `month_start` from `utils.py` / `gui/settlement.py` / `web/app.py`. -/
def month_start (d : PyDate) : PyDate :=
  ⟨d.year, d.month, 1⟩

/-- `month_end` from `utils.py`. -/
def month_end (d : PyDate) : PyDate :=
  ⟨d.year, d.month, days_in_month d⟩

/-- `same_month` from `gui/settlement.py` (and `_same_month` from `web/app.py`). -/
def same_month (a b : PyDate) : Bool :=
  a.year == b.year && a.month == b.month

/-- Months since year 0 of the month containing `d` (for valid months 1..12). -/
def monthIdx (d : PyDate) : Nat :=
  d.year * 12 + (d.month - 1)

/-- First day of the month with index `i`. -/
def monthOfIdx (i : Nat) : PyDate :=
  ⟨i / 12, i % 12 + 1, 1⟩

/-- `iter_month_starts` from `utils.py`: the first-of-month dates from
`month_start start` through `month_start end` inclusive.  The source's while
loop (step one calendar month while `cur <= end`) is rendered as the range of
month indices, which agrees with the loop on all real calendar dates
(month in 1..12, day ≥ 1). -/
def iter_month_starts (start stop : PyDate) : List PyDate :=
  (List.range (monthIdx stop + 1 - monthIdx (month_start start))).map
    (fun i => monthOfIdx (monthIdx (month_start start) + i))

/-- `proration_fraction` from `utils.py`: `(days_in_month - day + 1) / days_in_month`,
with `Decimal` arithmetic modelled as exact rationals. -/
def proration_fraction (entry_date : PyDate) : ℚ :=
  (((days_in_month entry_date : ℤ) - (entry_date.day : ℤ) + 1 : ℤ) : ℚ) /
    ((days_in_month entry_date : ℕ) : ℚ)

/-- `date_range_to_years` from `utils.py`: `range(start.year, end.year + 1)`. -/
def date_range_to_years (start stop : PyDate) : List Nat :=
  List.range' start.year (stop.year + 1 - start.year)

/-- Modelled from the spec: `year_month_first` is imported and used by
`calculations.py` but its definition is absent from the provided `utils.py`
(which only has `year_october_first`).  Spec §4.4: for each calendar year
compute `target = year-month-first(year, study_month)`, the first day of the
configured study month. -/
def year_month_first (year month : Nat) : PyDate :=
  ⟨year, month, 1⟩

/-- Rounding modes of Python's `decimal` module used by the configuration. -/
inductive RoundingMode where
  | ROUND_HALF_UP
  | ROUND_HALF_EVEN
  | ROUND_HALF_DOWN
  | ROUND_FLOOR
  | ROUND_CEILING
  | ROUND_DOWN
  | ROUND_UP
deriving DecidableEq, Repr

/-- Round a rational to an integer under a Python `decimal` rounding mode
(ties and directions exactly as documented for the `decimal` module). -/
def roundToInt (mode : RoundingMode) (x : ℚ) : ℤ :=
  match mode with
  | RoundingMode.ROUND_FLOOR => ⌊x⌋
  | RoundingMode.ROUND_CEILING => ⌈x⌉
  | RoundingMode.ROUND_DOWN => if 0 ≤ x then ⌊x⌋ else ⌈x⌉
  | RoundingMode.ROUND_UP => if 0 ≤ x then ⌈x⌉ else ⌊x⌋
  | RoundingMode.ROUND_HALF_UP => if 0 ≤ x then ⌊x + 1/2⌋ else -⌊-x + 1/2⌋
  | RoundingMode.ROUND_HALF_DOWN => if 0 ≤ x then ⌈x - 1/2⌉ else -⌈-x - 1/2⌉
  | RoundingMode.ROUND_HALF_EVEN =>
    if x - ⌊x⌋ < 1/2 then ⌊x⌋
    else if 1/2 < x - ⌊x⌋ then ⌊x⌋ + 1
    else if ⌊x⌋ % 2 = 0 then ⌊x⌋ else ⌊x⌋ + 1

/-- `quantize_amount` from `utils.py`: `amount.quantize(quantum, rounding)`,
i.e. the multiple of `quantum` obtained by rounding `amount / quantum`
to an integer under the given mode. -/
def quantize_amount (amount quantum : ℚ) (rounding : RoundingMode) : ℚ :=
  ((roundToInt rounding (amount / quantum) : ℤ) : ℚ) * quantum

/-- `DegreeLevel` from `models.py`. -/
inductive DegreeLevel where
  | BACHELOR
  | MASTER
  | PHD
deriving DecidableEq, Repr

/-- `Status` from `models.py`. -/
inductive Status where
  | IN_STUDY
  | GRADUATED
  | WITHDRAWN
deriving DecidableEq, Repr

/-- `AllowanceType` from `models.py` (`BAGGAGE` serialises as "ExcessBaggage"). -/
inductive AllowanceType where
  | LIVING
  | STUDY
  | BAGGAGE
deriving DecidableEq, Repr

/-- `MoneyAmount` from `models.py`. -/
structure MoneyAmount where
  usd : ℚ
  cny : ℚ
deriving DecidableEq, Repr

/-- `AllowanceConfig` from `config.py`.  The per-degree dictionary is carried
as a total function.  The final two fields are read by `calculations.py`
(`ctx.config.study_allowance_month`, `ctx.config.issue_study_if_entry_month`)
and set by the GUI layers, but their declaration is absent from the provided
`config.py`; they are modelled from the spec (§3, §4.4: a configurable study
month defaulting to October, and an entry-month override flag). -/
structure AllowanceConfig where
  living_allowance_by_degree : DegreeLevel → ℚ
  study_allowance_usd : ℚ
  baggage_allowance_usd : ℚ
  issue_study_if_exit_before_oct_entry_year : Bool
  fx_rate_usd_to_cny : ℚ
  usd_quantize : ℚ
  cny_quantize : ℚ
  rounding_mode : RoundingMode
  rounding_policy : String
  study_allowance_month : Nat
  issue_study_if_entry_month : Bool

/-- `AllowanceConfig.default` from `config.py`.  `Modelled from the spec:` the
values of the two study-month fields missing from the provided `config.py`
take the spec's defaults (study month October; override flag off, matching
the GUI's `data.get("issue_study_if_entry_month")` falsy default). -/
def AllowanceConfig.default : AllowanceConfig where
  living_allowance_by_degree := fun d =>
    match d with
    | DegreeLevel.BACHELOR => 300
    | DegreeLevel.MASTER => 350
    | DegreeLevel.PHD => 400
  study_allowance_usd := 800
  baggage_allowance_usd := 1200
  issue_study_if_exit_before_oct_entry_year := false
  fx_rate_usd_to_cny := 71/10
  usd_quantize := 1/100
  cny_quantize := 1/100
  rounding_mode := RoundingMode.ROUND_HALF_UP
  rounding_policy := "final_only"
  study_allowance_month := 10
  issue_study_if_entry_month := false

/-- `Student` from `models.py` (lifetime-projection data model).  Note the
model has a single optional terminal-date field `graduation_date`; for a
`WITHDRAWN` student it holds the withdrawal date. -/
structure Student where
  student_id : String
  name : String
  degree_level : DegreeLevel
  first_entry_date : PyDate
  graduation_date : Option PyDate
  status : Status
deriving DecidableEq, Repr

/-- `StudentRow` from `storage/db.py` (the settlement-roster data model;
`web/db.py`'s `WebStudent` has the same fields). -/
structure StudentRow where
  student_id : String
  name : String
  degree_level : DegreeLevel
  first_entry_date : PyDate
  status : Status
  graduation_date : Option PyDate
  withdrawal_date : Option PyDate
deriving DecidableEq, Repr

/-- `AllowanceRecord` from `models.py`; the audit-only `metadata` string map
is omitted. -/
structure AllowanceRecord where
  student_id : String
  allowance_type : AllowanceType
  period_start : PyDate
  period_end : PyDate
  amount : MoneyAmount
  rule_id : String
  description : String
deriving DecidableEq, Repr

/-- `CalculationContext.to_money` from `calculations.py`. -/
def to_money (config : AllowanceConfig) (usd : ℚ) (round_usd : Bool) : MoneyAmount :=
  let usd_q := if round_usd then quantize_amount usd config.usd_quantize config.rounding_mode else usd
  let cny := usd_q * config.fx_rate_usd_to_cny
  let cny_q := quantize_amount cny config.cny_quantize config.rounding_mode
  { usd := usd_q, cny := cny_q }

/-- Evaluation-window end used by both lifetime-projection evaluators: the
expression `calc_date if student.status == Status.IN_STUDY else
(student.graduation_date or calc_date)` repeated at `calculations.py` lines 69
and 114. -/
def calcExitDate (student : Student) (calc_date : PyDate) : PyDate :=
  match student.status with
  | Status.IN_STUDY => calc_date
  | _ => student.graduation_date.getD calc_date

/-- Body of the month loop of `_calculate_living_allowance`
(`calculations.py` lines 70-108): one record per month start, prorated for
the entry month. -/
def livingRecordFor (config : AllowanceConfig) (student : Student) (ms : PyDate) : AllowanceRecord :=
  let monthly_usd := config.living_allowance_by_degree student.degree_level
  if ms.year == student.first_entry_date.year && ms.month == student.first_entry_date.month then
    let fraction := proration_fraction student.first_entry_date
    let usd := monthly_usd * fraction
    let round_usd := config.rounding_policy == "two_step"
    { student_id := student.student_id
      allowance_type := AllowanceType.LIVING
      period_start := ms
      period_end := month_end ms
      amount := to_money config usd round_usd
      rule_id := "LIVING_ENTRY_PRORATE"
      description := "Prorated living allowance for entry month" }
  else
    { student_id := student.student_id
      allowance_type := AllowanceType.LIVING
      period_start := ms
      period_end := month_end ms
      amount := to_money config monthly_usd false
      rule_id := "LIVING_FULL_MONTH"
      description := "Full monthly living allowance" }

/-- `_calculate_living_allowance` from `calculations.py`. -/
def calculate_living_allowance (student : Student) (config : AllowanceConfig)
    (calc_date : PyDate) : List AllowanceRecord :=
  (iter_month_starts (month_start student.first_entry_date)
      (calcExitDate student calc_date)).map (livingRecordFor config student)

/-- Body of the year loop of `_calculate_study_allowance`
(`calculations.py` lines 115-165): at most one study record per year. -/
def studyRecordsForYear (config : AllowanceConfig) (student : Student)
    (calc_date : PyDate) (year : Nat) : List AllowanceRecord :=
  let exit_date := calcExitDate student calc_date
  let target_first := year_month_first year config.study_allowance_month
  let qualifies_month :=
    match student.status with
    | Status.IN_STUDY =>
      dateLe student.first_entry_date target_first && dateLe target_first exit_date
    | _ =>
      match student.graduation_date with
      | some g => dateLe student.first_entry_date target_first && dateLe target_first g
      | none => false
  let entry_month_override :=
    config.issue_study_if_entry_month
      && student.first_entry_date.year == year
      && student.first_entry_date.month == config.study_allowance_month
      && dateLe student.first_entry_date exit_date
  let special_case :=
    (student.status == Status.GRADUATED || student.status == Status.WITHDRAWN)
      && year == student.first_entry_date.year
      && dateLt exit_date
          (year_month_first student.first_entry_date.year config.study_allowance_month)
      && config.issue_study_if_exit_before_oct_entry_year
  if qualifies_month || entry_month_override || special_case then
    let rule_id :=
      if special_case then "STUDY_ENTRY_YEAR_OVERRIDE"
      else if entry_month_override && !qualifies_month then "STUDY_ENTRY_MONTH"
      else "STUDY_MONTH_IN_STUDY"
    let description :=
      if special_case then "Study allowance issued by entry-year override"
      else if entry_month_override && !qualifies_month then "Study allowance issued for entry month"
      else "Study allowance issued for study month in-study"
    [{ student_id := student.student_id
       allowance_type := AllowanceType.STUDY
       period_start := target_first
       period_end := target_first
       amount := to_money config config.study_allowance_usd false
       rule_id := rule_id
       description := description }]
  else []

/-- `_calculate_study_allowance` from `calculations.py`. -/
def calculate_study_allowance (student : Student) (config : AllowanceConfig)
    (calc_date : PyDate) : List AllowanceRecord :=
  (date_range_to_years student.first_entry_date (calcExitDate student calc_date)).foldr
    (fun year acc => studyRecordsForYear config student calc_date year ++ acc) []

/-- `_calculate_baggage_allowance` from `calculations.py`.  The source reads
`student.graduation_date` unguarded; a `GRADUATED` student without the date is
unrepresentable there (`Student.__post_init__` raises), so that case returns
the empty list here. -/
def calculate_baggage_allowance (student : Student) (config : AllowanceConfig) :
    List AllowanceRecord :=
  match student.status, student.graduation_date with
  | Status.GRADUATED, some g =>
    [{ student_id := student.student_id
       allowance_type := AllowanceType.BAGGAGE
       period_start := g
       period_end := g
       amount := to_money config config.baggage_allowance_usd false
       rule_id := "BAGGAGE_ON_GRADUATION"
       description := "One-time excess baggage allowance after graduation" }]
  | _, _ => []

/-- Record list of `calculate_student_allowances` from `calculations.py`.
The function's `CalculationResult` wrapper only adds per-type sums over this
list and an always-empty warning list, so the record list is what is
modelled. -/
def calculate_student_allowances (student : Student) (config : AllowanceConfig)
    (calc_date : PyDate) : List AllowanceRecord :=
  calculate_living_allowance student config calc_date
    ++ calculate_study_allowance student config calc_date
    ++ calculate_baggage_allowance student config

/-- `SettlementResult` from `gui/settlement.py`. -/
structure SettlementResult where
  records : List AllowanceRecord
  warnings : List String
deriving DecidableEq, Repr

/-- The `add_living` closure of `_student_records` (`gui/settlement.py` lines
80-98): one living record for the settlement month, prorated when requested,
with the USD amount pre-rounded only for a prorated record under the
`two_step` policy. -/
def settlementLivingRecord (config : AllowanceConfig) (s : StudentRow)
    (settlement_month : PyDate) (prorated : Bool) (rule_id description : String) :
    AllowanceRecord :=
  let monthly_usd := config.living_allowance_by_degree s.degree_level
  let fraction := if prorated then proration_fraction s.first_entry_date else 1
  let usd := monthly_usd * fraction
  let round_usd := prorated && config.rounding_policy == "two_step"
  { student_id := s.student_id
    allowance_type := AllowanceType.LIVING
    period_start := settlement_month
    period_end := month_end settlement_month
    amount := to_money config usd round_usd
    rule_id := rule_id
    description := description }

/-- Living-allowance section of `_student_records` (`gui/settlement.py`
lines 100-167). -/
def settlement_living (config : AllowanceConfig) (s : StudentRow)
    (settlement_month : PyDate) (pay_withdrawal_living : Bool) : List AllowanceRecord :=
  if dateLe (month_start s.first_entry_date) settlement_month then
    match s.status with
    | Status.IN_STUDY =>
      if same_month settlement_month (month_start s.first_entry_date) then
        [settlementLivingRecord config s settlement_month true
          "LIVING_ENTRY_PRORATE" "Prorated living allowance for entry month"]
      else
        [settlementLivingRecord config s settlement_month false
          "LIVING_FULL_MONTH" "Full monthly living allowance"]
    | Status.GRADUATED =>
      match s.graduation_date with
      | some g =>
        if dateLe settlement_month (month_start g) then
          if same_month settlement_month (month_start s.first_entry_date) then
            [settlementLivingRecord config s settlement_month true
              "LIVING_ENTRY_PRORATE" "Prorated living allowance for entry month"]
          else
            [settlementLivingRecord config s settlement_month false
              "LIVING_FULL_MONTH" "Full monthly living allowance"]
        else []
      | none => []
    | Status.WITHDRAWN =>
      match s.withdrawal_date with
      | some w =>
        if dateLt settlement_month (month_start w) then
          if same_month settlement_month (month_start s.first_entry_date) then
            [settlementLivingRecord config s settlement_month true
              "LIVING_ENTRY_PRORATE" "Prorated living allowance for entry month"]
          else
            [settlementLivingRecord config s settlement_month false
              "LIVING_FULL_MONTH" "Full monthly living allowance"]
        else if settlement_month == month_start w && pay_withdrawal_living then
          if same_month settlement_month (month_start s.first_entry_date) then
            [settlementLivingRecord config s settlement_month true
              "LIVING_WITHDRAWAL_TOGGLE_PRORATE"
              "Prorated living allowance for withdrawal month (toggle)"]
          else
            [settlementLivingRecord config s settlement_month false
              "LIVING_WITHDRAWAL_TOGGLE" "Living allowance for withdrawal month (toggle)"]
        else []
      | none => []
  else []

/-- Study-allowance section of `_student_records` (`gui/settlement.py`
lines 169-204, October only). -/
def settlement_study (config : AllowanceConfig) (s : StudentRow)
    (settlement_month : PyDate) : List AllowanceRecord :=
  if settlement_month.month == 10 then
    let oct_first : PyDate := ⟨settlement_month.year, 10, 1⟩
    let qualifies_oct :=
      match s.status with
      | Status.IN_STUDY => dateLe s.first_entry_date oct_first
      | Status.GRADUATED =>
        match s.graduation_date with
        | some g => dateLe s.first_entry_date oct_first && dateLe oct_first g
        | none => false
      | Status.WITHDRAWN => false
    let special_case :=
      match s.status, s.withdrawal_date with
      | Status.WITHDRAWN, some w =>
        s.first_entry_date.year == settlement_month.year
          && dateLt w oct_first
          && config.issue_study_if_exit_before_oct_entry_year
      | _, _ => false
    if qualifies_oct || special_case then
      [{ student_id := s.student_id
         allowance_type := AllowanceType.STUDY
         period_start := oct_first
         period_end := oct_first
         amount := to_money config config.study_allowance_usd false
         rule_id := if qualifies_oct then "STUDY_OCT_IN_STUDY" else "STUDY_ENTRY_YEAR_OVERRIDE"
         description :=
           if qualifies_oct then "Study allowance issued for October in-study"
           else "Study allowance issued by entry-year override" }]
    else []
  else []

/-- Baggage section of `_student_records` (`gui/settlement.py` lines
206-230): records together with the warnings it appends. -/
def settlement_baggage (config : AllowanceConfig) (s : StudentRow)
    (settlement_month : PyDate) (pay_baggage : Bool) :
    List AllowanceRecord × List String :=
  if pay_baggage then
    match s.graduation_date with
    | none => ([], [s.student_id ++ ": missing graduation_date"])
    | some g =>
      if dateLt settlement_month (month_start g) then
        ([], [s.student_id ++ ": before graduation month"])
      else
        ([{ student_id := s.student_id
            allowance_type := AllowanceType.BAGGAGE
            period_start := g
            period_end := g
            amount := to_money config config.baggage_allowance_usd false
            rule_id := "BAGGAGE_ON_GRADUATION"
            description := "One-time excess baggage allowance after graduation" }], [])
  else ([], [])

/-- `_student_records` from `gui/settlement.py`: the record list for one
student paired with the warnings appended for it. -/
def student_records (config : AllowanceConfig) (s : StudentRow)
    (settlement_month : PyDate) (pay_baggage pay_withdrawal_living : Bool) :
    List AllowanceRecord × List String :=
  let bag := settlement_baggage config s settlement_month pay_baggage
  (settlement_living config s settlement_month pay_withdrawal_living
      ++ settlement_study config s settlement_month
      ++ bag.1,
    bag.2)

/-- `compute_monthly_settlement` from `gui/settlement.py`: per-student records
concatenated in roster order, warnings appended to one shared list in the
same order. -/
def compute_monthly_settlement (students : List StudentRow)
    (settlement_month : PyDate) (config : AllowanceConfig)
    (baggage_pay_ids withdrawal_living_ids : List String) : SettlementResult where
  records :=
    (students.map (fun s =>
      (student_records config s settlement_month
        (baggage_pay_ids.contains s.student_id)
        (withdrawal_living_ids.contains s.student_id)).1)).flatten
  warnings :=
    (students.map (fun s =>
      (student_records config s settlement_month
        (baggage_pay_ids.contains s.student_id)
        (withdrawal_living_ids.contains s.student_id)).2)).flatten

/-- The `add_living` closure of `_monthly_records_for_student`
(`web/app.py` lines 168-185).  Unlike the GUI settlement variant it calls
`ctx.to_money(usd)` with the default `round_usd=False` for every record. -/
def webLivingRecord (config : AllowanceConfig) (s : StudentRow)
    (settlement_month : PyDate) (prorated : Bool) (rule_id description : String) :
    AllowanceRecord :=
  let monthly_usd := config.living_allowance_by_degree s.degree_level
  let fraction := if prorated then proration_fraction s.first_entry_date else 1
  let usd := monthly_usd * fraction
  { student_id := s.student_id
    allowance_type := AllowanceType.LIVING
    period_start := settlement_month
    period_end := month_end settlement_month
    amount := to_money config usd false
    rule_id := rule_id
    description := description }

/-- Living-allowance section of `_monthly_records_for_student`
(`web/app.py` lines 187-253). -/
def web_living (config : AllowanceConfig) (s : StudentRow)
    (settlement_month : PyDate) (pay_withdrawal_living : Bool) : List AllowanceRecord :=
  if dateLe (month_start s.first_entry_date) settlement_month then
    match s.status with
    | Status.IN_STUDY =>
      if same_month settlement_month (month_start s.first_entry_date) then
        [webLivingRecord config s settlement_month true
          "LIVING_ENTRY_PRORATE" "Prorated living allowance for entry month"]
      else
        [webLivingRecord config s settlement_month false
          "LIVING_FULL_MONTH" "Full monthly living allowance"]
    | Status.GRADUATED =>
      match s.graduation_date with
      | some g =>
        if dateLe settlement_month (month_start g) then
          if same_month settlement_month (month_start s.first_entry_date) then
            [webLivingRecord config s settlement_month true
              "LIVING_ENTRY_PRORATE" "Prorated living allowance for entry month"]
          else
            [webLivingRecord config s settlement_month false
              "LIVING_FULL_MONTH" "Full monthly living allowance"]
        else []
      | none => []
    | Status.WITHDRAWN =>
      match s.withdrawal_date with
      | some w =>
        if dateLt settlement_month (month_start w) then
          if same_month settlement_month (month_start s.first_entry_date) then
            [webLivingRecord config s settlement_month true
              "LIVING_ENTRY_PRORATE" "Prorated living allowance for entry month"]
          else
            [webLivingRecord config s settlement_month false
              "LIVING_FULL_MONTH" "Full monthly living allowance"]
        else if settlement_month == month_start w && pay_withdrawal_living then
          if same_month settlement_month (month_start s.first_entry_date) then
            [webLivingRecord config s settlement_month true
              "LIVING_WITHDRAWAL_TOGGLE_PRORATE"
              "Prorated living allowance for withdrawal month (toggle)"]
          else
            [webLivingRecord config s settlement_month false
              "LIVING_WITHDRAWAL_TOGGLE" "Living allowance for withdrawal month (toggle)"]
        else []
      | none => []
  else []

/-- Study section of `_monthly_records_for_student` (`web/app.py` lines
255-289); same October rule as the GUI settlement variant. -/
def web_study (config : AllowanceConfig) (s : StudentRow)
    (settlement_month : PyDate) : List AllowanceRecord :=
  if settlement_month.month == 10 then
    let oct_first : PyDate := ⟨settlement_month.year, 10, 1⟩
    let qualifies_oct :=
      match s.status with
      | Status.IN_STUDY => dateLe s.first_entry_date oct_first
      | Status.GRADUATED =>
        match s.graduation_date with
        | some g => dateLe s.first_entry_date oct_first && dateLe oct_first g
        | none => false
      | Status.WITHDRAWN => false
    let special_case :=
      match s.status, s.withdrawal_date with
      | Status.WITHDRAWN, some w =>
        s.first_entry_date.year == settlement_month.year
          && dateLt w oct_first
          && config.issue_study_if_exit_before_oct_entry_year
      | _, _ => false
    if qualifies_oct || special_case then
      [{ student_id := s.student_id
         allowance_type := AllowanceType.STUDY
         period_start := oct_first
         period_end := oct_first
         amount := to_money config config.study_allowance_usd false
         rule_id := if qualifies_oct then "STUDY_OCT_IN_STUDY" else "STUDY_ENTRY_YEAR_OVERRIDE"
         description :=
           if qualifies_oct then "Study allowance issued for October in-study"
           else "Study allowance issued by entry-year override" }]
    else []
  else []

/-- Baggage section of `_monthly_records_for_student` (`web/app.py` lines
291-311).  The localized `translate(lang, key, ...)` warning text is modelled
as the translation key tagged with the student id. -/
def web_baggage (config : AllowanceConfig) (s : StudentRow)
    (settlement_month : PyDate) (pay_baggage : Bool) :
    List AllowanceRecord × List String :=
  if pay_baggage then
    match s.graduation_date with
    | none => ([], ["warnings.baggage_missing_graduation:" ++ s.student_id])
    | some g =>
      if dateLt settlement_month (month_start g) then
        ([], ["warnings.baggage_before_graduation:" ++ s.student_id])
      else
        ([{ student_id := s.student_id
            allowance_type := AllowanceType.BAGGAGE
            period_start := g
            period_end := g
            amount := to_money config config.baggage_allowance_usd false
            rule_id := "BAGGAGE_ON_GRADUATION"
            description := "One-time excess baggage allowance after graduation" }], [])
  else ([], [])

/-- `_monthly_records_for_student` from `web/app.py`. -/
def monthly_records_for_student (config : AllowanceConfig) (s : StudentRow)
    (settlement_month : PyDate) (pay_baggage pay_withdrawal_living : Bool) :
    List AllowanceRecord × List String :=
  let bag := web_baggage config s settlement_month pay_baggage
  (web_living config s settlement_month pay_withdrawal_living
      ++ web_study config s settlement_month
      ++ bag.1,
    bag.2)

/-- State of the persisted settlement data relevant to baggage dedupe: the
`baggage_payments` ledger keyed by student id and the persisted
`allowance_records` rows (run ids and timestamps omitted). -/
structure DbState where
  baggage_payments : List String
  allowance_records : List AllowanceRecord
deriving DecidableEq, Repr

/-- The empty database. -/
def emptyDb : DbState :=
  ⟨[], []⟩

/-- A persisted row counts against `sid`'s baggage dedupe when it belongs to
`sid` and has type `ExcessBaggage` (the `WHERE` clause of `is_baggage_paid`). -/
def isBaggageRecordFor (sid : String) (r : AllowanceRecord) : Bool :=
  r.student_id == sid && r.allowance_type == AllowanceType.BAGGAGE

/-- `is_baggage_paid` from `storage/db.py` (and `web/db.py`): a ledger row for
the student, or any persisted `ExcessBaggage` record of the student. -/
def is_baggage_paid (st : DbState) (sid : String) : Bool :=
  st.baggage_payments.contains sid || st.allowance_records.any (isBaggageRecordFor sid)

/-- `record_baggage_paid` from `storage/db.py`: `INSERT ... ON CONFLICT
(student_id) DO NOTHING`. -/
def record_baggage_paid (st : DbState) (sid : String) : DbState :=
  if st.baggage_payments.contains sid then st
  else { st with baggage_payments := st.baggage_payments ++ [sid] }

/-- `save_records` from `storage/db.py`: batch insert of computed records. -/
def save_records (st : DbState) (records : List AllowanceRecord) : DbState :=
  { st with allowance_records := st.allowance_records ++ records }

/-- Loop body of `run_settlement_all` (`web/app.py` lines 411-434) for one
roster student: clear the baggage toggle when `is_baggage_paid`, clear the
withdrawal toggle unless the withdrawal month equals the settlement month,
compute the student's records, persist them, and flip the baggage ledger when
a baggage record was persisted.  Run rows and warning strings are omitted. -/
def webRunStudent (config : AllowanceConfig) (settlement_month : PyDate)
    (baggage_pay withdrawal_living_pay : List String) (st : DbState)
    (s : StudentRow) : DbState :=
  let pay_baggage :=
    baggage_pay.contains s.student_id && !(is_baggage_paid st s.student_id)
  let pay_withdrawal_living :=
    withdrawal_living_pay.contains s.student_id &&
      (match s.withdrawal_date with
       | some w => same_month (month_start w) settlement_month
       | none => false)
  let records :=
    (monthly_records_for_student config s settlement_month pay_baggage
      pay_withdrawal_living).1
  if records.isEmpty then st
  else
    let st1 := save_records st records
    if records.any (fun r => r.allowance_type == AllowanceType.BAGGAGE) then
      record_baggage_paid st1 s.student_id
    else st1

/-- `run_settlement_all` from `web/app.py`: the per-student loop over the
roster, threading the database state. -/
def run_settlement_all (config : AllowanceConfig) (settlement_month : PyDate)
    (baggage_pay withdrawal_living_pay : List String) (st : DbState)
    (roster : List StudentRow) : DbState :=
  roster.foldl (webRunStudent config settlement_month baggage_pay withdrawal_living_pay) st

/-- `WebBridge.run_settlement` from `gui_web/app.py` (lines 202-225): computes
the whole run with `compute_monthly_settlement`, persists every record, and
flips the baggage ledger for each persisted baggage record.  Note: unlike
`run_settlement_all` it performs no `is_baggage_paid` check before emitting. -/
def bridge_run_settlement (config : AllowanceConfig) (settlement_month : PyDate)
    (baggage_pay withdrawal_living_pay : List String) (st : DbState)
    (roster : List StudentRow) : DbState :=
  let result :=
    compute_monthly_settlement roster settlement_month config baggage_pay
      withdrawal_living_pay
  if result.records.isEmpty then st
  else
    result.records.foldl
      (fun acc r =>
        if r.allowance_type == AllowanceType.BAGGAGE then
          record_baggage_paid acc r.student_id
        else acc)
      (save_records st result.records)

/-- Number of persisted `ExcessBaggage` records of one student. -/
def baggageRecordCount (st : DbState) (sid : String) : Nat :=
  st.allowance_records.countP (isBaggageRecordFor sid)

/-- The spec's system-wide baggage-dedupe invariant: at most one persisted
Baggage record per student. -/
def BaggageDedupe (st : DbState) : Prop :=
  ∀ sid : String, baggageRecordCount st sid ≤ 1

/-- Spec §8 example scenario: Bachelor, entry 2024-01-10, graduation
2024-01-20 (the default configuration already has the scenario's rate
300.00 USD, FX 7.10, `ROUND_HALF_UP`, `final_only`). -/
def c1Student : Student :=
  { student_id := "S001"
    name := "Test"
    degree_level := DegreeLevel.BACHELOR
    first_entry_date := ⟨2024, 1, 10⟩
    graduation_date := some ⟨2024, 1, 20⟩
    status := Status.GRADUATED }

/-- Living records of the lifetime projection for the C1 scenario. -/
def c1LivingRecords : List AllowanceRecord :=
  (calculate_student_allowances c1Student AllowanceConfig.default ⟨2025, 1, 1⟩).filter
    (fun r => r.allowance_type == AllowanceType.LIVING)

/-- Configuration of the spec's rounding-divergence scenario: monthly rate
100.005, FX 7.12345, cent granularity, `ROUND_HALF_UP`, with the rounding
policy left as a parameter (the source test dictionary only carries the
Bachelor rate). -/
def c3Config (policy : String) : AllowanceConfig where
  living_allowance_by_degree := fun d =>
    match d with
    | DegreeLevel.BACHELOR => 100005/1000
    | _ => 0
  study_allowance_usd := 0
  baggage_allowance_usd := 0
  issue_study_if_exit_before_oct_entry_year := false
  fx_rate_usd_to_cny := 712345/100000
  usd_quantize := 1/100
  cny_quantize := 1/100
  rounding_mode := RoundingMode.ROUND_HALF_UP
  rounding_policy := policy
  study_allowance_month := 10
  issue_study_if_entry_month := false

/-- Roster student for the rounding-divergence scenario: entry day 16 of a
30-day month, so the entry-month proration fraction is exactly 1/2. -/
def c3Student : StudentRow :=
  { student_id := "S005"
    name := "Test"
    degree_level := DegreeLevel.BACHELOR
    first_entry_date := ⟨2024, 4, 16⟩
    status := Status.IN_STUDY
    graduation_date := none
    withdrawal_date := none }

/-- Spec §8 example scenario: PhD, entry 2023-09-01, graduation 2025-06-30. -/
def c8Student : Student :=
  { student_id := "S003"
    name := "Test"
    degree_level := DegreeLevel.PHD
    first_entry_date := ⟨2023, 9, 1⟩
    graduation_date := some ⟨2025, 6, 30⟩
    status := Status.GRADUATED }

/-- Roster student for the baggage-dedupe scenario: graduated 2024-06-30, so
a settlement run for 2024-07 with the baggage toggle set emits a Baggage
record. -/
def c2Student : StudentRow :=
  { student_id := "S3"
    name := "Test"
    degree_level := DegreeLevel.PHD
    first_entry_date := ⟨2023, 1, 1⟩
    status := Status.GRADUATED
    graduation_date := some ⟨2024, 6, 30⟩
    withdrawal_date := none }

/-- Database state after one `WebBridge.run_settlement` run for 2024-07 with
the baggage toggle set for the graduated student, starting from an empty
database. -/
def c2StateAfterOne : DbState :=
  bridge_run_settlement AllowanceConfig.default ⟨2024, 7, 1⟩ ["S3"] [] emptyDb
    [c2Student]

/-- Database state after a second identical `WebBridge.run_settlement` run. -/
def c2StateAfterTwo : DbState :=
  bridge_run_settlement AllowanceConfig.default ⟨2024, 7, 1⟩ ["S3"] [] c2StateAfterOne
    [c2Student]

/-! Helper lemmas shared by the claim theorems. -/

/-- Evaluation rule for `quantize_amount` under `ROUND_HALF_UP` on a
non-negative scaled amount. -/
lemma quantize_halfUp_eval (a q : ℚ) (n : ℤ) (h0 : 0 ≤ a / q)
    (h1 : (n : ℚ) ≤ a / q + 1/2) (h2 : a / q + 1/2 < (n : ℚ) + 1) :
    quantize_amount a q RoundingMode.ROUND_HALF_UP = n * q := by
  simp only [quantize_amount, roundToInt]
  rw [if_pos h0, Int.floor_eq_iff.mpr ⟨h1, h2⟩]

/-- Every calendar month has at least 28 days. -/
lemma days_in_month_pos (d : PyDate) : 0 < days_in_month d := by
  unfold days_in_month daysInMonthOf
  split
  · split <;> norm_num
  · split <;> norm_num

/-- Entry-month CNY amount of the C1 scenario: the unrounded USD value is
converted at 7.10 and only then quantized, giving 1511.61. -/
lemma c1_living_cny_value :
    c1LivingRecords.map (fun r => r.amount.cny) = [(151161 : ℚ)/100] := by
  show [(livingRecordFor AllowanceConfig.default c1Student ⟨2024, 1, 1⟩).amount.cny]
      = [(151161 : ℚ)/100]
  refine congrArg (fun x => [x]) ?_
  show quantize_amount ((300 * proration_fraction ⟨2024, 1, 10⟩) * (71/10)) (1/100)
      RoundingMode.ROUND_HALF_UP = (151161 : ℚ)/100
  rw [quantize_halfUp_eval _ _ 151161] <;>
    norm_num [proration_fraction, days_in_month, daysInMonthOf, isLeapYear]

/-- Entry-month USD amount of the C1 scenario: unrounded 300 × 22/31. -/
lemma c1_living_usd_value :
    c1LivingRecords.map (fun r => r.amount.usd) = [300 * ((22 : ℚ)/31)] := by
  show [(livingRecordFor AllowanceConfig.default c1Student ⟨2024, 1, 1⟩).amount.usd]
      = [300 * ((22 : ℚ)/31)]
  refine congrArg (fun x => [x]) ?_
  show 300 * proration_fraction ⟨2024, 1, 10⟩ = 300 * ((22 : ℚ)/31)
  norm_num [proration_fraction, days_in_month, daysInMonthOf, isLeapYear]

/-! Claim theorems. -/

/-- C1, counterexample: in the spec's example scenario (Bachelor, entry
2024-01-10, graduation 2024-01-20, rate 300.00, FX 7.10, `ROUND_HALF_UP`,
`final_only`) the single Living record's local-currency amount is 1511.61,
not the claimed 1511.59. -/
theorem C1_counterexample :
    c1LivingRecords.map (fun r => r.amount.cny) = [(151161 : ℚ)/100]
      ∧ ((151161 : ℚ)/100) ≠ ((151159 : ℚ)/100) :=
  ⟨c1_living_cny_value, by norm_num⟩

/-- C1 (amended): the lifetime projection for the example scenario emits
exactly one Living record, period 2024-01-01 through 2024-01-31, rule id
`LIVING_ENTRY_PRORATE`, USD amount equal to the unrounded 300.00 × 22/31, and
CNY amount 1511.61 (the rounded product of the unrounded USD value and 7.10). -/
theorem C1_example_scenario :
    c1LivingRecords.map (fun r => r.rule_id) = ["LIVING_ENTRY_PRORATE"]
      ∧ c1LivingRecords.map (fun r => r.period_start) = [⟨2024, 1, 1⟩]
      ∧ c1LivingRecords.map (fun r => r.period_end) = [⟨2024, 1, 31⟩]
      ∧ c1LivingRecords.map (fun r => r.amount.usd) = [300 * ((22 : ℚ)/31)]
      ∧ c1LivingRecords.map (fun r => r.amount.cny) = [(151161 : ℚ)/100] :=
  ⟨by decide, by decide, by decide, c1_living_usd_value, c1_living_cny_value⟩

/-- C3: with monthly rate 100.005, FX 7.12345, cent granularity,
`ROUND_HALF_UP` and proration fraction 1/2, the prorated entry-month Living
record's CNY amount is 356.17 under `two_step` (USD quantized to 50.00 before
conversion) but 356.19 under `final_only` (full-precision 50.0025 converted
first); the two policies differ. -/
theorem C3_rounding_policy_divergence :
    (settlement_living (c3Config "two_step") c3Student ⟨2024, 4, 1⟩ false).map
        (fun r => r.amount.cny) = [(35617 : ℚ)/100]
      ∧ (settlement_living (c3Config "final_only") c3Student ⟨2024, 4, 1⟩ false).map
          (fun r => r.amount.cny) = [(35619 : ℚ)/100]
      ∧ ((35617 : ℚ)/100) ≠ ((35619 : ℚ)/100) := by
  refine ⟨?_, ?_, by norm_num⟩
  · show [(settlementLivingRecord (c3Config "two_step") c3Student ⟨2024, 4, 1⟩ true
        "LIVING_ENTRY_PRORATE" "Prorated living allowance for entry month").amount.cny]
        = [(35617 : ℚ)/100]
    refine congrArg (fun x => [x]) ?_
    show quantize_amount
        (quantize_amount ((100005 : ℚ)/1000 * proration_fraction ⟨2024, 4, 16⟩) (1/100)
            RoundingMode.ROUND_HALF_UP * (712345/100000)) (1/100)
        RoundingMode.ROUND_HALF_UP = (35617 : ℚ)/100
    have hu : quantize_amount ((100005 : ℚ)/1000 * proration_fraction ⟨2024, 4, 16⟩) (1/100)
        RoundingMode.ROUND_HALF_UP = 50 := by
      rw [quantize_halfUp_eval _ _ 5000] <;>
        norm_num [proration_fraction, days_in_month, daysInMonthOf, isLeapYear]
    rw [hu, quantize_halfUp_eval _ _ 35617] <;> norm_num
  · show [(settlementLivingRecord (c3Config "final_only") c3Student ⟨2024, 4, 1⟩ true
        "LIVING_ENTRY_PRORATE" "Prorated living allowance for entry month").amount.cny]
        = [(35619 : ℚ)/100]
    refine congrArg (fun x => [x]) ?_
    show quantize_amount (((100005 : ℚ)/1000 * proration_fraction ⟨2024, 4, 16⟩) * (712345/100000))
        (1/100) RoundingMode.ROUND_HALF_UP = (35619 : ℚ)/100
    rw [quantize_halfUp_eval _ _ 35619] <;>
      norm_num [proration_fraction, days_in_month, daysInMonthOf, isLeapYear]

/-- C4: `to_money` quantizes the USD input to the configured USD granularity
with the configured mode before conversion exactly when `round_usd` is true,
keeps it at full precision otherwise, always quantizes the product with the
configured FX rate to the local granularity with the configured mode, and
returns exactly that pair. -/
theorem C4_to_money_contract (config : AllowanceConfig) (usd : ℚ) :
    to_money config usd true =
        { usd := quantize_amount usd config.usd_quantize config.rounding_mode
          cny := quantize_amount
            (quantize_amount usd config.usd_quantize config.rounding_mode
              * config.fx_rate_usd_to_cny)
            config.cny_quantize config.rounding_mode }
      ∧ to_money config usd false =
        { usd := usd
          cny := quantize_amount (usd * config.fx_rate_usd_to_cny)
            config.cny_quantize config.rounding_mode } :=
  ⟨rfl, rfl⟩

/-- C8: the lifetime projection of the PhD example (entry 2023-09-01,
graduation 2025-06-30, default configuration) emits exactly two Study
records, dated 2023-10-01 and 2024-10-01, and none for 2025.  The study
month and entry-month flag that this relies on are modelled from the spec
(see `AllowanceConfig`). -/
theorem C8_phd_study_records :
    ((calculate_student_allowances c8Student AllowanceConfig.default ⟨2025, 12, 31⟩).filter
        (fun r => r.allowance_type == AllowanceType.STUDY)).map (fun r => r.period_start)
      = [⟨2023, 10, 1⟩, ⟨2024, 10, 1⟩] := by
  decide

/-- C9: for every entry date, `proration_fraction` is the exact rational
`(L − d + 1) / L` over the entry month's true length `L`, it equals 1 on the
first of the month, and the month length honours leap years (29 days in
February 2024, 28 in February 2023). -/
theorem C9_proration_formula :
    (∀ d : PyDate,
        proration_fraction d
            = ((days_in_month d : ℚ) - (d.day : ℚ) + 1) / (days_in_month d : ℚ)
          ∧ (d.day = 1 → proration_fraction d = 1))
      ∧ proration_fraction ⟨2024, 2, 10⟩ = (20 : ℚ)/29
      ∧ proration_fraction ⟨2023, 2, 10⟩ = (19 : ℚ)/28 := by
  refine ⟨fun d => ⟨?_, ?_⟩, ?_, ?_⟩
  · unfold proration_fraction
    push_cast
    ring
  · intro h1
    have hL : (0 : ℚ) < (days_in_month d : ℚ) := by
      exact_mod_cast days_in_month_pos d
    unfold proration_fraction
    rw [h1]
    push_cast
    field_simp
  · norm_num [proration_fraction, days_in_month, daysInMonthOf, isLeapYear]
  · norm_num [proration_fraction, days_in_month, daysInMonthOf, isLeapYear]

/-- C9, witness: the first conjunct applied at 2024-03-01, whose entry day 1
yields the full-month fraction 1. -/
theorem C9_proration_formula_witness :
    proration_fraction ⟨2024, 3, 1⟩ = 1 :=
  (C9_proration_formula.1 ⟨2024, 3, 1⟩).2 rfl

/-- Date order is monotone under taking month starts. -/
lemma month_start_le_month_start {a b : PyDate} (h : dateLe a b = true) :
    dateLe (month_start a) (month_start b) = true := by
  obtain ⟨ay, am, ad⟩ := a
  obtain ⟨cy, cm, cd⟩ := b
  simp [dateLe, dateLt, month_start, Bool.or_eq_true, Bool.and_eq_true,
    beq_iff_eq, decide_eq_true_eq, PyDate.mk.injEq] at h ⊢
  omega

/-- A first-of-month date in the same month as `w` is `month_start w`. -/
lemma eq_month_start_of_same_month {m w : PyDate} (hday : m.day = 1)
    (h : same_month m w = true) : m = month_start w := by
  obtain ⟨my, mm, md⟩ := m
  simp only [same_month, Bool.and_eq_true, beq_iff_eq] at h
  simp only at hday
  simp only [month_start, PyDate.mk.injEq]
  exact ⟨h.1, h.2, hday⟩

/-- Strict date order is irreflexive. -/
lemma dateLt_self (a : PyDate) : dateLt a a = false := by
  simp [dateLt]

/-- Strict date order is asymmetric. -/
lemma dateLt_asymm {a b : PyDate} (h : dateLt a b = true) : dateLt b a = false := by
  obtain ⟨ay, am, ad⟩ := a
  obtain ⟨cy, cm, cd⟩ := b
  simp [dateLt, Bool.or_eq_true, Bool.and_eq_true, beq_iff_eq,
    decide_eq_true_eq, PyDate.mk.injEq] at h ⊢
  omega

/-- Strictly later dates are unequal. -/
lemma beq_false_of_dateLt {a b : PyDate} (h : dateLt a b = true) : (b == a) = false := by
  obtain ⟨ay, am, ad⟩ := a
  obtain ⟨cy, cm, cd⟩ := b
  simp [dateLt, Bool.or_eq_true, Bool.and_eq_true, beq_iff_eq,
    decide_eq_true_eq, PyDate.mk.injEq] at h ⊢
  omega

/-- Every record of the GUI settlement living section has type Living. -/
lemma settlement_living_type (config : AllowanceConfig) (s : StudentRow)
    (m : PyDate) (pw : Bool) :
    ∀ r ∈ settlement_living config s m pw, r.allowance_type = AllowanceType.LIVING := by
  intro r hr
  simp only [settlement_living] at hr
  repeat' split at hr
  all_goals
    first
      | exact absurd hr (List.not_mem_nil r)
      | (rw [List.mem_singleton] at hr; subst hr; rfl)

/-- Every record of the GUI settlement study section has type Study. -/
lemma settlement_study_type (config : AllowanceConfig) (s : StudentRow) (m : PyDate) :
    ∀ r ∈ settlement_study config s m, r.allowance_type = AllowanceType.STUDY := by
  intro r hr
  simp only [settlement_study] at hr
  repeat' split at hr
  all_goals
    first
      | exact absurd hr (List.not_mem_nil r)
      | (rw [List.mem_singleton] at hr; subst hr; rfl)

/-- C5: in settlement mode, for a WITHDRAWN student with a withdrawal date on
or after entry (the data-model invariant): in the withdrawal month a Living
record is emitted exactly when the student's id is in the withdrawal toggle
list, with rule id `LIVING_WITHDRAWAL_TOGGLE_PRORATE` when that month is also
the entry month and `LIVING_WITHDRAWAL_TOGGLE` otherwise; strictly before the
withdrawal month the student is treated exactly like an IN_STUDY student
(normal entry-prorate/full-month rules); strictly after it no Living record
is emitted. -/
theorem C5_withdrawal_toggle (config : AllowanceConfig) (s : StudentRow)
    (m w : PyDate) (wIds : List String)
    (hs : s.status = Status.WITHDRAWN) (hw : s.withdrawal_date = some w)
    (hday : m.day = 1) (hinv : dateLe s.first_entry_date w = true) :
    (same_month m w = true →
        (settlement_living config s m (wIds.contains s.student_id)).map
            (fun r => r.rule_id)
          = if s.student_id ∈ wIds then
              [if same_month m (month_start s.first_entry_date) then
                  "LIVING_WITHDRAWAL_TOGGLE_PRORATE"
                else "LIVING_WITHDRAWAL_TOGGLE"]
            else [])
      ∧ (dateLt m (month_start w) = true →
          settlement_living config s m (wIds.contains s.student_id)
            = settlement_living config { s with status := Status.IN_STUDY } m
                (wIds.contains s.student_id))
      ∧ (dateLt (month_start w) m = true →
          settlement_living config s m (wIds.contains s.student_id) = []) := by
  obtain ⟨sid, nm, deg, fe, st, gd, wd⟩ := s
  simp only at hs hw hinv ⊢
  subst hs
  subst hw
  refine ⟨?_, ?_, ?_⟩
  · intro hsm
    have hm : m = month_start w := eq_month_start_of_same_month hday hsm
    have hguard : dateLe (month_start fe) m = true := by
      rw [hm]
      exact month_start_le_month_start hinv
    have hne : dateLt m (month_start w) = false := by
      rw [hm]
      exact dateLt_self _
    have heq : (m == month_start w) = true := by
      rw [hm]
      exact beq_self_eq_true _
    simp only [settlement_living, hguard, hne, heq, Bool.true_and, Bool.false_eq_true,
      if_false, if_true]
    by_cases hmem : sid ∈ wIds
    · have hc : wIds.contains sid = true := List.elem_iff.mpr hmem
      rw [hc, if_pos hmem]
      simp only [eq_self_iff_true, if_true]
      split <;> rfl
    · have hc : wIds.contains sid = false := by
        rw [← Bool.not_eq_true]
        intro hcon
        exact hmem (List.elem_iff.mp hcon)
      rw [hc]
      rw [if_neg hmem]
      simp
  · intro hlt
    simp only [settlement_living, hlt, if_true]
    rfl
  · intro hgt
    simp only [settlement_living, dateLt_asymm hgt, beq_false_of_dateLt hgt,
      Bool.false_eq_true, if_false, Bool.false_and]
    split <;> rfl

/-- C5, witness: the theorem applied to a withdrawn student (entry 2023-01-01,
withdrawal 2024-05-20) settled for 2024-05 with the toggle set. -/
theorem C5_withdrawal_toggle_witness :
    (same_month ⟨2024, 5, 1⟩ ⟨2024, 5, 20⟩ = true →
        (settlement_living AllowanceConfig.default
            ⟨"S4", "Test", DegreeLevel.BACHELOR, ⟨2023, 1, 1⟩, Status.WITHDRAWN, none,
              some ⟨2024, 5, 20⟩⟩ ⟨2024, 5, 1⟩ (["S4"].contains "S4")).map
            (fun r => r.rule_id)
          = if "S4" ∈ ["S4"] then
              [if same_month ⟨2024, 5, 1⟩ (month_start ⟨2023, 1, 1⟩) then
                  "LIVING_WITHDRAWAL_TOGGLE_PRORATE"
                else "LIVING_WITHDRAWAL_TOGGLE"]
            else [])
      ∧ (dateLt ⟨2024, 5, 1⟩ (month_start ⟨2024, 5, 20⟩) = true →
          settlement_living AllowanceConfig.default
              ⟨"S4", "Test", DegreeLevel.BACHELOR, ⟨2023, 1, 1⟩, Status.WITHDRAWN, none,
                some ⟨2024, 5, 20⟩⟩ ⟨2024, 5, 1⟩ (["S4"].contains "S4")
            = settlement_living AllowanceConfig.default
                ⟨"S4", "Test", DegreeLevel.BACHELOR, ⟨2023, 1, 1⟩, Status.IN_STUDY, none,
                  some ⟨2024, 5, 20⟩⟩ ⟨2024, 5, 1⟩ (["S4"].contains "S4"))
      ∧ (dateLt (month_start ⟨2024, 5, 20⟩) ⟨2024, 5, 1⟩ = true →
          settlement_living AllowanceConfig.default
              ⟨"S4", "Test", DegreeLevel.BACHELOR, ⟨2023, 1, 1⟩, Status.WITHDRAWN, none,
                some ⟨2024, 5, 20⟩⟩ ⟨2024, 5, 1⟩ (["S4"].contains "S4") = []) :=
  C5_withdrawal_toggle AllowanceConfig.default
    ⟨"S4", "Test", DegreeLevel.BACHELOR, ⟨2023, 1, 1⟩, Status.WITHDRAWN, none,
      some ⟨2024, 5, 20⟩⟩ ⟨2024, 5, 1⟩ ⟨2024, 5, 20⟩ ["S4"] rfl rfl rfl (by decide)

/-- Each month's living record carries that month's start as its period start. -/
lemma livingRecordFor_period_start (config : AllowanceConfig) (student : Student)
    (ms : PyDate) : (livingRecordFor config student ms).period_start = ms := by
  simp only [livingRecordFor]
  split <;> rfl

/-- C6: in the lifetime projection, the evaluation window of a non-IN_STUDY
student (GRADUATED or WITHDRAWN) ends at the terminal date stored in the
model's `graduation_date` slot — the graduation date of a GRADUATED student
and the withdrawal date of a WITHDRAWN one — with the evaluation date used
only when that date is absent; in particular the Living months are exactly
the months from the entry month through the terminal date's month. -/
theorem C6_exit_window (config : AllowanceConfig) (s : Student) (c d : PyDate)
    (h1 : s.status ≠ Status.IN_STUDY) (h2 : s.graduation_date = some d) :
    calcExitDate s c = d
      ∧ (calculate_living_allowance s config c).map (fun r => r.period_start)
          = iter_month_starts (month_start s.first_entry_date) d
      ∧ (∀ s2 : Student, s2.status ≠ Status.IN_STUDY → s2.graduation_date = none →
          calcExitDate s2 c = c) := by
  have hexit : calcExitDate s c = d := by
    unfold calcExitDate
    cases hst : s.status with
    | IN_STUDY => exact absurd hst h1
    | GRADUATED => rw [h2]; rfl
    | WITHDRAWN => rw [h2]; rfl
  refine ⟨hexit, ?_, ?_⟩
  · rw [calculate_living_allowance, hexit, List.map_map]
    rw [show ((fun r => r.period_start) ∘ livingRecordFor config s) = id from
      funext fun ms => livingRecordFor_period_start config s ms]
    exact List.map_id _
  · intro s2 h1' hnone
    unfold calcExitDate
    cases hst : s2.status with
    | IN_STUDY => exact absurd hst h1'
    | GRADUATED => rw [hnone]; rfl
    | WITHDRAWN => rw [hnone]; rfl

/-- C6, witness: the theorem applied to a withdrawn student (entry 2023-02-05,
withdrawal stored as the terminal date 2023-04-10) evaluated on 2024-06-01. -/
theorem C6_exit_window_witness :
    calcExitDate
        ⟨"W1", "Test", DegreeLevel.MASTER, ⟨2023, 2, 5⟩, some ⟨2023, 4, 10⟩,
          Status.WITHDRAWN⟩ ⟨2024, 6, 1⟩ = ⟨2023, 4, 10⟩
      ∧ (calculate_living_allowance
            ⟨"W1", "Test", DegreeLevel.MASTER, ⟨2023, 2, 5⟩, some ⟨2023, 4, 10⟩,
              Status.WITHDRAWN⟩ AllowanceConfig.default ⟨2024, 6, 1⟩).map
            (fun r => r.period_start)
          = iter_month_starts (month_start ⟨2023, 2, 5⟩) ⟨2023, 4, 10⟩
      ∧ (∀ s2 : Student, s2.status ≠ Status.IN_STUDY → s2.graduation_date = none →
          calcExitDate s2 ⟨2024, 6, 1⟩ = ⟨2024, 6, 1⟩) :=
  C6_exit_window AllowanceConfig.default
    ⟨"W1", "Test", DegreeLevel.MASTER, ⟨2023, 2, 5⟩, some ⟨2023, 4, 10⟩,
      Status.WITHDRAWN⟩ ⟨2024, 6, 1⟩ ⟨2023, 4, 10⟩ (by decide) rfl

/-- C7: in settlement mode, when the baggage toggle is set but the student has
no graduation date or the settlement month precedes the graduation month, the
student gets no Baggage record and exactly one warning is appended, and the
run's records are the concatenation of independent per-student record lists,
so other students are unaffected. -/
theorem C7_baggage_before_graduation (config : AllowanceConfig) (s : StudentRow)
    (m : PyDate) (pw : Bool)
    (hcond : s.graduation_date = none
      ∨ ∃ g, s.graduation_date = some g ∧ dateLt m (month_start g) = true) :
    (∀ r ∈ (student_records config s m true pw).1,
        r.allowance_type ≠ AllowanceType.BAGGAGE)
      ∧ (student_records config s m true pw).2.length = 1
      ∧ (∀ (roster : List StudentRow) (bIds wIds : List String),
          (compute_monthly_settlement roster m config bIds wIds).records
            = (roster.map (fun t =>
                (student_records config t m (bIds.contains t.student_id)
                  (wIds.contains t.student_id)).1)).flatten) := by
  have hbag : (settlement_baggage config s m true).1 = []
      ∧ (settlement_baggage config s m true).2.length = 1 := by
    rcases hcond with hnone | ⟨g, hg, hlt⟩
    · simp [settlement_baggage, hnone]
    · simp [settlement_baggage, hg, hlt]
  refine ⟨?_, ?_, fun roster bIds wIds => rfl⟩
  · intro r hr
    unfold student_records at hr
    simp only [hbag.1, List.append_nil] at hr
    rcases List.mem_append.mp hr with h | h
    · rw [settlement_living_type config s m pw r h]
      decide
    · rw [settlement_study_type config s m r h]
      decide
  · exact hbag.2

/-- C7, witness: the theorem applied to a graduated student (graduation
2024-06-30) settled for 2024-05 with the baggage toggle set. -/
theorem C7_baggage_before_graduation_witness :
    (∀ r ∈ (student_records AllowanceConfig.default
        ⟨"S3", "Test", DegreeLevel.PHD, ⟨2023, 1, 1⟩, Status.GRADUATED,
          some ⟨2024, 6, 30⟩, none⟩ ⟨2024, 5, 1⟩ true false).1,
        r.allowance_type ≠ AllowanceType.BAGGAGE)
      ∧ (student_records AllowanceConfig.default
          ⟨"S3", "Test", DegreeLevel.PHD, ⟨2023, 1, 1⟩, Status.GRADUATED,
            some ⟨2024, 6, 30⟩, none⟩ ⟨2024, 5, 1⟩ true false).2.length = 1
      ∧ (∀ (roster : List StudentRow) (bIds wIds : List String),
          (compute_monthly_settlement roster ⟨2024, 5, 1⟩ AllowanceConfig.default
              bIds wIds).records
            = (roster.map (fun t =>
                (student_records AllowanceConfig.default t ⟨2024, 5, 1⟩
                  (bIds.contains t.student_id) (wIds.contains t.student_id)).1)).flatten) :=
  C7_baggage_before_graduation AllowanceConfig.default
    ⟨"S3", "Test", DegreeLevel.PHD, ⟨2023, 1, 1⟩, Status.GRADUATED,
      some ⟨2024, 6, 30⟩, none⟩ ⟨2024, 5, 1⟩ false
    (Or.inr ⟨⟨2024, 6, 30⟩, rfl, by decide⟩)

/-- C10: settlement-mode Living records exist only from the entry month on;
a GRADUATED student's records additionally stop at the graduation month; and
a GRADUATED student without a graduation date, or a WITHDRAWN student without
a withdrawal date, never receives one. -/
theorem C10_living_bounds (config : AllowanceConfig) (s : StudentRow)
    (m : PyDate) (pw : Bool) (r : AllowanceRecord)
    (hr : r ∈ settlement_living config s m pw) :
    dateLe (month_start s.first_entry_date) m = true
      ∧ (∀ g, s.status = Status.GRADUATED → s.graduation_date = some g →
          dateLe m (month_start g) = true)
      ∧ ¬(s.status = Status.GRADUATED ∧ s.graduation_date = none)
      ∧ ¬(s.status = Status.WITHDRAWN ∧ s.withdrawal_date = none) := by
  obtain ⟨sid, nm, deg, fe, st, gd, wd⟩ := s
  simp only at hr ⊢
  simp only [settlement_living] at hr
  split at hr
  case isFalse => exact absurd hr (List.not_mem_nil r)
  case isTrue hguard =>
    refine ⟨hguard, ?_⟩
    cases st with
    | IN_STUDY =>
      refine ⟨fun g hst => absurd hst (by decide), fun hst => absurd hst.1 (by decide),
        fun hst => absurd hst.1 (by decide)⟩
    | GRADUATED =>
      dsimp only at hr
      cases gd with
      | none => exact absurd hr (List.not_mem_nil r)
      | some g =>
        dsimp only at hr
        split at hr
        case isFalse => exact absurd hr (List.not_mem_nil r)
        case isTrue hle =>
          refine ⟨?_, ?_, ?_⟩
          · intro g' _ hg'
            cases hg'
            exact hle
          · intro hcon
            cases hcon.2
          · intro hcon
            cases hcon.1
    | WITHDRAWN =>
      refine ⟨fun g hst => absurd hst (by decide), fun hst => absurd hst.1 (by decide), ?_⟩
      dsimp only at hr
      cases wd with
      | none => exact absurd hr (List.not_mem_nil r)
      | some w =>
        intro hcon
        cases hcon.2

/-- C10, witness: the theorem applied to the full-month record of an in-study
student (entry 2024-01-10) settled for 2024-02. -/
theorem C10_living_bounds_witness :
    dateLe (month_start (⟨2024, 1, 10⟩ : PyDate)) ⟨2024, 2, 1⟩ = true
      ∧ (∀ g, Status.IN_STUDY = Status.GRADUATED →
          (none : Option PyDate) = some g →
          dateLe ⟨2024, 2, 1⟩ (month_start g) = true)
      ∧ ¬(Status.IN_STUDY = Status.GRADUATED ∧ (none : Option PyDate) = none)
      ∧ ¬(Status.IN_STUDY = Status.WITHDRAWN ∧ (none : Option PyDate) = none) :=
  C10_living_bounds AllowanceConfig.default
    ⟨"S1", "Test", DegreeLevel.BACHELOR, ⟨2024, 1, 10⟩, Status.IN_STUDY, none, none⟩
    ⟨2024, 2, 1⟩ false
    (settlementLivingRecord AllowanceConfig.default
      ⟨"S1", "Test", DegreeLevel.BACHELOR, ⟨2024, 1, 10⟩, Status.IN_STUDY, none, none⟩
      ⟨2024, 2, 1⟩ false "LIVING_FULL_MONTH" "Full monthly living allowance")
    (by
      show _ ∈ [settlementLivingRecord AllowanceConfig.default
        ⟨"S1", "Test", DegreeLevel.BACHELOR, ⟨2024, 1, 10⟩, Status.IN_STUDY, none, none⟩
        ⟨2024, 2, 1⟩ false "LIVING_FULL_MONTH" "Full monthly living allowance"]
      exact List.mem_singleton.mpr rfl)

/-- Every record of the web living section has type Living. -/
lemma web_living_type (config : AllowanceConfig) (s : StudentRow)
    (m : PyDate) (pw : Bool) :
    ∀ r ∈ web_living config s m pw, r.allowance_type = AllowanceType.LIVING := by
  intro r hr
  simp only [web_living] at hr
  repeat' split at hr
  all_goals
    first
      | exact absurd hr (List.not_mem_nil r)
      | (rw [List.mem_singleton] at hr; subst hr; rfl)

/-- Every record of the web study section has type Study. -/
lemma web_study_type (config : AllowanceConfig) (s : StudentRow) (m : PyDate) :
    ∀ r ∈ web_study config s m, r.allowance_type = AllowanceType.STUDY := by
  intro r hr
  simp only [web_study] at hr
  repeat' split at hr
  all_goals
    first
      | exact absurd hr (List.not_mem_nil r)
      | (rw [List.mem_singleton] at hr; subst hr; rfl)

/-- The web baggage section contributes at most one dedupe-relevant record,
and only for its own student with the toggle set. -/
lemma web_baggage_countP (config : AllowanceConfig) (s : StudentRow) (m : PyDate)
    (pb : Bool) (sid : String) :
    (web_baggage config s m pb).1.countP (isBaggageRecordFor sid)
      ≤ if pb = true ∧ sid = s.student_id then 1 else 0 := by
  cases pb with
  | false =>
    simp [web_baggage]
  | true =>
    cases hgd : s.graduation_date with
    | none => simp [web_baggage, hgd]
    | some g =>
      simp only [web_baggage, hgd, if_true]
      split
      · simp
      · simp only [List.countP_singleton]
        by_cases hsid : sid = s.student_id
        · split <;> simp [hsid]
        · have hb : isBaggageRecordFor sid
              { student_id := s.student_id
                allowance_type := AllowanceType.BAGGAGE
                period_start := g
                period_end := g
                amount := to_money config config.baggage_allowance_usd false
                rule_id := "BAGGAGE_ON_GRADUATION"
                description := "One-time excess baggage allowance after graduation" }
              = false := by
            simp [isBaggageRecordFor]
            intro hcon
            exact absurd hcon.symm hsid
          rw [hb]
          simp [hsid]

/-- Per-student record lists of the web settlement carry at most one
dedupe-relevant record, only with the baggage toggle set and only for the
student's own id. -/
lemma monthly_records_countP (config : AllowanceConfig) (s : StudentRow)
    (m : PyDate) (pb pw : Bool) (sid : String) :
    (monthly_records_for_student config s m pb pw).1.countP (isBaggageRecordFor sid)
      ≤ if pb = true ∧ sid = s.student_id then 1 else 0 := by
  simp only [monthly_records_for_student, List.countP_append]
  have h1 : (web_living config s m pw).countP (isBaggageRecordFor sid) = 0 := by
    rw [List.countP_eq_zero]
    intro r hrm
    have ht := web_living_type config s m pw r hrm
    simp [isBaggageRecordFor, ht]
  have h2 : (web_study config s m).countP (isBaggageRecordFor sid) = 0 := by
    rw [List.countP_eq_zero]
    intro r hrm
    have ht := web_study_type config s m r hrm
    simp [isBaggageRecordFor, ht]
  rw [h1, h2]
  have h3 := web_baggage_countP config s m pb sid
  omega

/-- The baggage ledger write never changes the persisted record rows. -/
lemma baggageRecordCount_record_baggage_paid (st : DbState) (a sid : String) :
    baggageRecordCount (record_baggage_paid st a) sid = baggageRecordCount st sid := by
  unfold record_baggage_paid baggageRecordCount
  split <;> rfl

/-- Saving records adds their dedupe-relevant count. -/
lemma baggageRecordCount_save_records (st : DbState) (recs : List AllowanceRecord)
    (sid : String) :
    baggageRecordCount (save_records st recs) sid
      = baggageRecordCount st sid + recs.countP (isBaggageRecordFor sid) := by
  simp [save_records, baggageRecordCount]

/-- A student the ledger reports unpaid has no persisted Baggage record. -/
lemma baggageRecordCount_eq_zero (st : DbState) (sid : String)
    (h : is_baggage_paid st sid = false) : baggageRecordCount st sid = 0 := by
  unfold is_baggage_paid at h
  rw [Bool.or_eq_false_iff] at h
  have h2 := h.2
  rw [List.any_eq_false] at h2
  unfold baggageRecordCount
  rw [List.countP_eq_zero]
  exact h2

/-- One student step of `run_settlement_all` preserves the baggage-dedupe
invariant: the toggle is cleared via `is_baggage_paid` before any record is
emitted. -/
lemma webRunStudent_dedupe (config : AllowanceConfig) (m : PyDate)
    (bIds wIds : List String) (s : StudentRow) (st : DbState)
    (h : BaggageDedupe st) :
    BaggageDedupe (webRunStudent config m bIds wIds st s) := by
  intro sid
  simp only [webRunStudent]
  have hb : baggageRecordCount st sid +
      ((monthly_records_for_student config s m
          (bIds.contains s.student_id && !is_baggage_paid st s.student_id)
          (wIds.contains s.student_id &&
            match s.withdrawal_date with
            | some w => same_month (month_start w) m
            | none => false)).1.countP (isBaggageRecordFor sid)) ≤ 1 := by
    have hcount := monthly_records_countP config s m
      (bIds.contains s.student_id && !is_baggage_paid st s.student_id)
      (wIds.contains s.student_id &&
        match s.withdrawal_date with
        | some w => same_month (month_start w) m
        | none => false) sid
    by_cases hc : (bIds.contains s.student_id && !is_baggage_paid st s.student_id) = true
      ∧ sid = s.student_id
    · have hz : baggageRecordCount st sid = 0 := by
        rcases hc with ⟨hc1, rfl⟩
        have hnp : is_baggage_paid st s.student_id = false := by
          have h3 := (Bool.and_eq_true _ _).mp hc1
          simpa using h3.2
        exact baggageRecordCount_eq_zero st s.student_id hnp
      rw [if_pos hc] at hcount
      omega
    · rw [if_neg hc] at hcount
      have hs := h sid
      omega
  split
  · exact h sid
  · split
    · rw [baggageRecordCount_record_baggage_paid, baggageRecordCount_save_records]
      exact hb
    · rw [baggageRecordCount_save_records]
      exact hb

/-- C2 (amended): across any number of runs through the web entry point
`run_settlement_all` — which checks `is_baggage_paid` and clears the toggle
before emitting — at most one persisted Baggage record per student ever
exists.  (`WebBridge.run_settlement` performs no such check; see the
counterexample.) -/
theorem C2_web_dedupe_invariant (config : AllowanceConfig) (m : PyDate)
    (bIds wIds : List String) (roster : List StudentRow) (st : DbState)
    (h : BaggageDedupe st) :
    BaggageDedupe (run_settlement_all config m bIds wIds st roster) := by
  induction roster generalizing st with
  | nil => exact h
  | cons s rest ih =>
    exact ih (webRunStudent config m bIds wIds st s)
      (webRunStudent_dedupe config m bIds wIds s st h)

/-- C2, witness: the invariant carried through one concrete web settlement
run from the empty database. -/
theorem C2_web_dedupe_invariant_witness :
    BaggageDedupe (run_settlement_all AllowanceConfig.default ⟨2024, 7, 1⟩ ["S3"] []
      emptyDb [c2Student]) :=
  C2_web_dedupe_invariant AllowanceConfig.default ⟨2024, 7, 1⟩ ["S3"] [] [c2Student]
    emptyDb (fun sid => by simp [baggageRecordCount, emptyDb])

/-- C2, counterexample: two identical runs through `WebBridge.run_settlement`
with the baggage toggle set for an already-paid graduated student persist a
second Baggage record — the claimed system-wide at-most-one invariant fails
across the application's settlement entry points. -/
theorem C2_counterexample :
    baggageRecordCount c2StateAfterTwo "S3" = 2 ∧ ¬ BaggageDedupe c2StateAfterTwo := by
  have h2 : baggageRecordCount c2StateAfterTwo "S3" = 2 := by decide
  refine ⟨h2, fun hall => ?_⟩
  have := hall "S3"
  omega

end Oma
